import Mathlib

/-!
# FFMI calculator: the computation of `src/src/App.jsx`

The two memoised computations of the `App` component, `ffmiData` (lines 40-117) and
`gaugePercentage` (lines 120-129), are embedded as pure functions.  Numbers are exact
rationals; `Number.prototype.toFixed(2)` is the rounding of a number to the nearest hundredth
(a tie goes away from zero), and the decimal string it returns is represented by the rational
it denotes, which is what the subtraction in `gaugePercentage` coerces it back to.
-/

namespace FfmiCalc

/-- The `gender` state: it is initialised to `'male'` and only ever set to `'male'` or
`'female'` (the two buttons of the selector). -/
inductive Gender where
  | male
  | female
deriving DecidableEq, Repr

/-- The `ffmiRanges` object literal of either branch of the ladder. -/
structure Ranges where
  belowAverage : ℚ
  average : ℚ
  aboveAverage : ℚ
  excellent : ℚ
  suspicious : ℚ
deriving DecidableEq, Repr

/-- The object returned by the `ffmiData` computation.  `ranges` is absent (`undefined`) from the
two early returns and present in the final one. -/
structure FfmiData where
  ffmi : ℚ
  adjustedFfmi : ℚ
  fatFreeMass : ℚ
  category : String
  interpretation : String
  ranges : Option Ranges
deriving DecidableEq, Repr

/-- `x.toFixed(2)`, as the number the resulting string denotes: the integer `n` with `n / 100`
closest to the magnitude of `x`, the larger `n` on a tie, with the sign of `x` put back. -/
def toFixed2 (x : ℚ) : ℚ :=
  if x < 0 then -((⌊(-x) * 100 + 1 / 2⌋ : ℤ) : ℚ) / 100
  else ((⌊x * 100 + 1 / 2⌋ : ℤ) : ℚ) / 100

/-- Line 43: `const heightInMeters = height / 100`. -/
def heightInMeters (height : ℚ) : ℚ := height / 100

/-- Line 44: `const fatMass = weight * (bodyFat / 100)`. -/
def fatMass (weight bodyFat : ℚ) : ℚ := weight * (bodyFat / 100)

/-- Line 45: `const fatFreeMass = weight - fatMass`. -/
def fatFreeMass (weight bodyFat : ℚ) : ℚ := weight - fatMass weight bodyFat

/-- Line 49: `const ffmi = fatFreeMass / (heightInMeters * heightInMeters)`. -/
def ffmi (height weight bodyFat : ℚ) : ℚ :=
  fatFreeMass weight bodyFat / (heightInMeters height * heightInMeters height)

/-- Line 50: `const adjustedFfmi = ffmi + 6.1 * (1.8 - heightInMeters)`. -/
def adjustedFfmi (height weight bodyFat : ℚ) : ℚ :=
  ffmi height weight bodyFat + 6.1 * (1.8 - heightInMeters height)

/-- The `ffmiRanges` literal of the male branch (lines 57-63). -/
def maleRanges : Ranges :=
  { belowAverage := 18, average := 20, aboveAverage := 22, excellent := 24, suspicious := 25 }

/-- The `ffmiRanges` literal of the female branch (lines 84-90). -/
def femaleRanges : Ranges :=
  { belowAverage := 14, average := 16, aboveAverage := 18, excellent := 20, suspicious := 21 }

/-- Lines 52-107: the two `if / else if` ladders, returning the `category`, the
`interpretation` and the `ffmiRanges` they assign. -/
def ladder (gender : Gender) (ffmi : ℚ) : String × String × Ranges :=
  if gender = Gender.male then
    let ffmiRanges := maleRanges
    if ffmi < ffmiRanges.belowAverage then
      ("Below Average", "Indicates a lower level of muscle mass for your height.", ffmiRanges)
    else if ffmi < ffmiRanges.average then
      ("Average", "A healthy and typical amount of muscle mass.", ffmiRanges)
    else if ffmi < ffmiRanges.aboveAverage then
      ("Above Average", "Represents a good level of muscular development.", ffmiRanges)
    else if ffmi < ffmiRanges.excellent then
      ("Excellent", "Signifies a high degree of muscularity, often seen in athletes.",
        ffmiRanges)
    else if ffmi < ffmiRanges.suspicious then
      ("Very Muscular",
        "Indicates a level of muscle mass that is achievable naturally by very few.",
        ffmiRanges)
    else
      ("Likely Unnatural",
        "This level of muscularity is rarely, if ever, achieved without performance-enhancing drugs.",
        ffmiRanges)
  else
    let ffmiRanges := femaleRanges
    if ffmi < ffmiRanges.belowAverage then
      ("Below Average", "Indicates a lower level of muscle mass for your height.", ffmiRanges)
    else if ffmi < ffmiRanges.average then
      ("Average", "A healthy and typical amount of muscle mass.", ffmiRanges)
    else if ffmi < ffmiRanges.aboveAverage then
      ("Above Average", "Represents a good level of muscular development.", ffmiRanges)
    else if ffmi < ffmiRanges.excellent then
      ("Excellent", "Signifies a high degree of muscularity, often seen in athletes.",
        ffmiRanges)
    else
      ("Very Muscular",
        "Indicates a level of muscle mass that is very high and rarely achieved naturally.",
        ffmiRanges)

/-- The object of the two early returns (lines 41 and 47). -/
def notAvailable : FfmiData :=
  { ffmi := 0, adjustedFfmi := 0, fatFreeMass := 0, category := "N/A", interpretation := "",
    ranges := none }

/-- Lines 40-117: the `ffmiData` computation. -/
def ffmiData (height weight bodyFat : ℚ) (gender : Gender) : FfmiData :=
  if height = 0 then notAvailable
  else if fatFreeMass weight bodyFat ≤ 0 then notAvailable
  else
    let r := ladder gender (ffmi height weight bodyFat)
    { ffmi := toFixed2 (ffmi height weight bodyFat)
      adjustedFfmi := toFixed2 (adjustedFfmi height weight bodyFat)
      fatFreeMass := toFixed2 (fatFreeMass weight bodyFat)
      category := r.1
      interpretation := r.2.1
      ranges := some r.2.2 }

/-- Lines 120-129: the `gaugePercentage` computation, from the `ffmiData` object and the
`gender` state. -/
def gaugePercentage (data : FfmiData) (gender : Gender) : ℚ :=
  match data.ranges with
  | none => 0
  | some _ =>
    let lo : ℚ := if gender = Gender.male then 16 else 13
    let hi : ℚ := if gender = Gender.male then 26 else 22
    let percentage := ((data.ffmi - lo) / (hi - lo)) * 100
    max 0 (min 100 percentage)

/-! ## The specification's vocabulary -/

/-- The specification's ordered threshold table of a sex: pairs of an exclusive upper bound
and the category below it. -/
def thresholds : Gender → List (ℚ × String)
  | Gender.male =>
    [(18, "Below Average"), (20, "Average"), (22, "Above Average"), (24, "Excellent"),
      (25, "Very Muscular")]
  | Gender.female =>
    [(14, "Below Average"), (16, "Average"), (18, "Above Average"), (20, "Excellent")]

/-- The specification's final, open-ended category of a sex. -/
def finalCategory : Gender → String
  | Gender.male => "Likely Unnatural"
  | Gender.female => "Very Muscular"

/-- The specification's classifier: the category of the first entry of the table whose upper
bound strictly exceeds `x`, and `final` when no bound exceeds it. -/
def firstExceeding (table : List (ℚ × String)) (final : String) (x : ℚ) : String :=
  match table.find? (fun e => decide (x < e.1)) with
  | some e => e.2
  | none => final

/-- The categories of the ladder of a sex, lowest first. -/
def ladderCategories (gender : Gender) : List String :=
  (thresholds gender).map Prod.snd ++ [finalCategory gender]

/-- The rank of a category label in the fixed ladder order
Below Average < Average < Above Average < Excellent < Very Muscular < Likely Unnatural. -/
def rank (category : String) : ℕ :=
  ["Below Average", "Average", "Above Average", "Excellent", "Very Muscular",
    "Likely Unnatural"].indexOf category

/-- The specification's display range `(rangeMin, rangeMax)` of the gauge. -/
def displayRange : Gender → ℚ × ℚ
  | Gender.male => (16, 26)
  | Gender.female => (13, 22)

/-! ## Auxiliary facts -/

theorem ffmiData_of_pos (height weight bodyFat : ℚ) (gender : Gender) (hh : height ≠ 0)
    (hf : 0 < fatFreeMass weight bodyFat) :
    ffmiData height weight bodyFat gender =
      { ffmi := toFixed2 (ffmi height weight bodyFat)
        adjustedFfmi := toFixed2 (adjustedFfmi height weight bodyFat)
        fatFreeMass := toFixed2 (fatFreeMass weight bodyFat)
        category := (ladder gender (ffmi height weight bodyFat)).1
        interpretation := (ladder gender (ffmi height weight bodyFat)).2.1
        ranges := some (ladder gender (ffmi height weight bodyFat)).2.2 } := by
  unfold ffmiData
  rw [if_neg hh, if_neg (not_le.mpr hf)]

theorem ffmiData_of_height_zero (weight bodyFat : ℚ) (gender : Gender) :
    ffmiData 0 weight bodyFat gender = notAvailable := by
  unfold ffmiData
  rw [if_pos rfl]

theorem ffmiData_of_nonpos (height weight bodyFat : ℚ) (gender : Gender)
    (hf : fatFreeMass weight bodyFat ≤ 0) :
    ffmiData height weight bodyFat gender = notAvailable := by
  unfold ffmiData
  rw [if_pos hf]
  split <;> rfl

theorem gaugePercentage_notAvailable (gender : Gender) :
    gaugePercentage notAvailable gender = 0 := rfl

theorem heightInMeters_sq_pos (height : ℚ) (hh : height ≠ 0) :
    0 < heightInMeters height * heightInMeters height := by
  have : heightInMeters height ≠ 0 := by
    unfold heightInMeters
    exact div_ne_zero hh (by norm_num)
  exact mul_self_pos.mpr this

theorem ffmi_pos (height weight bodyFat : ℚ) (hh : height ≠ 0)
    (hf : 0 < fatFreeMass weight bodyFat) : 0 < ffmi height weight bodyFat := by
  unfold ffmi
  exact div_pos hf (heightInMeters_sq_pos height hh)

/-- For a non-negative number `toFixed2` is determined by the integer it rounds to. -/
theorem toFixed2_eq_of_bounds (x : ℚ) (n : ℤ) (h0 : 0 ≤ x) (h1 : (n : ℚ) ≤ x * 100 + 1 / 2)
    (h2 : x * 100 + 1 / 2 < (n : ℚ) + 1) : toFixed2 x = (n : ℚ) / 100 := by
  unfold toFixed2
  rw [if_neg (not_lt.mpr h0)]
  have : ⌊x * 100 + 1 / 2⌋ = n := Int.floor_eq_iff.mpr ⟨h1, h2⟩
  rw [this]

theorem toFixed2_le (x : ℚ) (h0 : 0 ≤ x) : toFixed2 x ≤ x + 1 / 200 := by
  unfold toFixed2
  rw [if_neg (not_lt.mpr h0)]
  have h := Int.floor_le (x * 100 + 1 / 2)
  rw [div_le_iff₀ (by norm_num)]
  linarith

theorem lt_toFixed2 (x : ℚ) (h0 : 0 ≤ x) : x - 1 / 200 < toFixed2 x := by
  unfold toFixed2
  rw [if_neg (not_lt.mpr h0)]
  have h := Int.lt_floor_add_one (x * 100 + 1 / 2)
  rw [lt_div_iff₀ (by norm_num)]
  linarith

theorem ladder_male (x : ℚ) :
    ladder Gender.male x =
      if x < 18 then
        ("Below Average", "Indicates a lower level of muscle mass for your height.", maleRanges)
      else if x < 20 then ("Average", "A healthy and typical amount of muscle mass.", maleRanges)
      else if x < 22 then
        ("Above Average", "Represents a good level of muscular development.", maleRanges)
      else if x < 24 then
        ("Excellent", "Signifies a high degree of muscularity, often seen in athletes.",
          maleRanges)
      else if x < 25 then
        ("Very Muscular",
          "Indicates a level of muscle mass that is achievable naturally by very few.",
          maleRanges)
      else
        ("Likely Unnatural",
          "This level of muscularity is rarely, if ever, achieved without performance-enhancing drugs.",
          maleRanges) := rfl

theorem ladder_female (x : ℚ) :
    ladder Gender.female x =
      if x < 14 then
        ("Below Average", "Indicates a lower level of muscle mass for your height.",
          femaleRanges)
      else if x < 16 then
        ("Average", "A healthy and typical amount of muscle mass.", femaleRanges)
      else if x < 18 then
        ("Above Average", "Represents a good level of muscular development.", femaleRanges)
      else if x < 20 then
        ("Excellent", "Signifies a high degree of muscularity, often seen in athletes.",
          femaleRanges)
      else
        ("Very Muscular",
          "Indicates a level of muscle mass that is very high and rarely achieved naturally.",
          femaleRanges) := rfl

theorem ladder_category_mem (gender : Gender) (x : ℚ) :
    (ladder gender x).1 ∈ ladderCategories gender := by
  cases gender
  · rw [ladder_male]
    split_ifs <;> simp [ladderCategories, thresholds, finalCategory]
  · rw [ladder_female]
    split_ifs <;> simp [ladderCategories, thresholds, finalCategory]

theorem ladder_category_ne (gender : Gender) (x : ℚ) : (ladder gender x).1 ≠ "N/A" := by
  cases gender
  · rw [ladder_male]
    split_ifs <;> decide
  · rw [ladder_female]
    split_ifs <;> decide

theorem fatFreeMass_eq (weight bodyFat : ℚ) :
    fatFreeMass weight bodyFat = weight * (1 - bodyFat / 100) := by
  unfold fatFreeMass fatMass
  ring

theorem ladder_category_eq_firstExceeding (gender : Gender) (x : ℚ) :
    (ladder gender x).1 = firstExceeding (thresholds gender) (finalCategory gender) x := by
  cases gender
  · rw [ladder_male]
    simp only [firstExceeding, thresholds, finalCategory, List.find?]
    split_ifs <;> simp [*]
  · rw [ladder_female]
    simp only [firstExceeding, thresholds, finalCategory, List.find?]
    split_ifs <;> simp [*]

theorem ladder_rank_mono (gender : Gender) (a b : ℚ) (hab : a ≤ b) :
    rank (ladder gender a).1 ≤ rank (ladder gender b).1 := by
  cases gender
  · rw [ladder_male, ladder_male]
    split_ifs <;> first
      | (exfalso; linarith)
      | decide
  · rw [ladder_female, ladder_female]
    split_ifs <;> first
      | (exfalso; linarith)
      | decide

theorem ladder_interpretation_of_same_category (x y : ℚ)
    (h : (ladder Gender.male x).1 = (ladder Gender.female y).1) :
    ((ladder Gender.male x).1 ≠ "Very Muscular" →
        (ladder Gender.male x).2.1 = (ladder Gender.female y).2.1) ∧
      ((ladder Gender.male x).1 = "Very Muscular" →
        (ladder Gender.male x).2.1 =
            "Indicates a level of muscle mass that is achievable naturally by very few." ∧
          (ladder Gender.female y).2.1 =
            "Indicates a level of muscle mass that is very high and rarely achieved naturally.") := by
  rw [ladder_male, ladder_female] at *
  split_ifs at h ⊢ <;> first
    | (exfalso; revert h; decide)
    | decide

theorem gaugePercentage_of_ranges (data : FfmiData) (gender : Gender)
    (hr : data.ranges ≠ none) :
    gaugePercentage data gender =
      max 0 (min 100 ((data.ffmi - (displayRange gender).1) /
        ((displayRange gender).2 - (displayRange gender).1) * 100)) := by
  unfold gaugePercentage
  cases hd : data.ranges with
  | none => exact absurd hd hr
  | some r => cases gender <;> simp [displayRange]

theorem gaugePercentage_ffmiData (height weight bodyFat : ℚ) (gender : Gender)
    (hh : height ≠ 0) (hf : 0 < fatFreeMass weight bodyFat) :
    gaugePercentage (ffmiData height weight bodyFat gender) gender =
      max 0 (min 100 ((toFixed2 (ffmi height weight bodyFat) - (displayRange gender).1) /
        ((displayRange gender).2 - (displayRange gender).1) * 100)) := by
  rw [gaugePercentage_of_ranges _ _
    (by rw [ffmiData_of_pos height weight bodyFat gender hh hf]; simp),
    ffmiData_of_pos height weight bodyFat gender hh hf]

/-- A saturated gauge goes with an extreme category: at 0 the category is `N/A` or the lowest
band, at 100 it is the highest band of the ladder of the sex. -/
theorem saturation_extreme (height weight bodyFat : ℚ) (gender : Gender) :
    (gaugePercentage (ffmiData height weight bodyFat gender) gender = 0 →
        (ffmiData height weight bodyFat gender).category = "N/A" ∨
          (ffmiData height weight bodyFat gender).category = "Below Average") ∧
      (gaugePercentage (ffmiData height weight bodyFat gender) gender = 100 →
        (ffmiData height weight bodyFat gender).category = finalCategory gender) := by
  by_cases hh : height = 0
  · subst hh
    rw [ffmiData_of_height_zero, gaugePercentage_notAvailable]
    exact ⟨fun _ => Or.inl rfl, fun h => absurd h (by norm_num)⟩
  by_cases hf : fatFreeMass weight bodyFat ≤ 0
  · rw [ffmiData_of_nonpos height weight bodyFat gender hf, gaugePercentage_notAvailable]
    exact ⟨fun _ => Or.inl rfl, fun h => absurd h (by norm_num)⟩
  have hf' : 0 < fatFreeMass weight bodyFat := not_le.mp hf
  have hx : 0 < ffmi height weight bodyFat := ffmi_pos height weight bodyFat hh hf'
  have hlo := lt_toFixed2 (ffmi height weight bodyFat) hx.le
  have hhi := toFixed2_le (ffmi height weight bodyFat) hx.le
  rw [gaugePercentage_ffmiData height weight bodyFat gender hh hf',
    ffmiData_of_pos height weight bodyFat gender hh hf']
  constructor
  · intro h
    right
    have h1 : min 100 ((toFixed2 (ffmi height weight bodyFat) - (displayRange gender).1) /
        ((displayRange gender).2 - (displayRange gender).1) * 100) ≤ 0 := by
      rw [← h]
      exact le_max_right _ _
    rw [min_le_iff] at h1
    rcases h1 with h1 | h1
    · norm_num at h1
    · cases gender
      · simp only [displayRange] at h1
        have : ffmi height weight bodyFat < 18 := by
          norm_num at h1
          linarith
        simp only [ladder_male, if_pos this]
      · simp only [displayRange] at h1
        have : ffmi height weight bodyFat < 14 := by
          norm_num at h1
          linarith
        simp only [ladder_female, if_pos this]
  · intro h
    have h1 : (100 : ℚ) ≤ min 100 ((toFixed2 (ffmi height weight bodyFat) -
        (displayRange gender).1) / ((displayRange gender).2 - (displayRange gender).1) * 100) := by
      rcases max_choice (0 : ℚ) (min 100 ((toFixed2 (ffmi height weight bodyFat) -
        (displayRange gender).1) / ((displayRange gender).2 - (displayRange gender).1) * 100))
        with h2 | h2
      · rw [h2] at h
        norm_num at h
      · rw [h2] at h
        exact h.ge
    have h3 := (le_min_iff.mp h1).2
    cases gender
    · simp only [displayRange] at h3
      have : 25 ≤ ffmi height weight bodyFat := by
        norm_num at h3
        linarith
      simp only [ladder_male, finalCategory]
      rw [if_neg (by linarith), if_neg (by linarith), if_neg (by linarith), if_neg (by linarith),
        if_neg (by linarith)]
    · simp only [displayRange] at h3
      have : 20 ≤ ffmi height weight bodyFat := by
        norm_num at h3
        linarith
      simp only [ladder_female, finalCategory]
      rw [if_neg (by linarith), if_neg (by linarith), if_neg (by linarith), if_neg (by linarith)]

/-! ## The claims -/

/-- C1: sentinel policy.  When the height is 0, or the fat-free mass
`weight - weight * (bodyFat / 100)` is not positive (as when the body-fat percentage is 100, or
the weight is not positive and the body-fat percentage is below 100), `ffmiData` is the zero
result with category `N/A` and an empty interpretation, and the gauge percentage computed from
it is 0. -/
theorem sentinel_policy (height weight bodyFat : ℚ) (gender : Gender)
    (h : height = 0 ∨ weight - weight * (bodyFat / 100) ≤ 0 ∨ bodyFat = 100 ∨
      (weight ≤ 0 ∧ bodyFat < 100)) :
    ffmiData height weight bodyFat gender =
        { ffmi := 0, adjustedFfmi := 0, fatFreeMass := 0, category := "N/A",
          interpretation := "", ranges := none } ∧
      gaugePercentage (ffmiData height weight bodyFat gender) gender = 0 := by
  have key : ffmiData height weight bodyFat gender = notAvailable := by
    rcases h with h | h | h | ⟨hw, hb⟩
    · subst h
      exact ffmiData_of_height_zero weight bodyFat gender
    · exact ffmiData_of_nonpos height weight bodyFat gender h
    · apply ffmiData_of_nonpos
      rw [fatFreeMass_eq, h]
      norm_num
    · apply ffmiData_of_nonpos
      rw [fatFreeMass_eq]
      apply mul_nonpos_of_nonpos_of_nonneg hw
      linarith
  rw [key]
  exact ⟨rfl, gaugePercentage_notAvailable gender⟩

theorem sentinel_policy_witness :
    (ffmiData 0 70 15 Gender.male =
        { ffmi := 0, adjustedFfmi := 0, fatFreeMass := 0, category := "N/A",
          interpretation := "", ranges := none } ∧
      gaugePercentage (ffmiData 0 70 15 Gender.male) Gender.male = 0) ∧
    (ffmiData 175 70 100 Gender.female =
        { ffmi := 0, adjustedFfmi := 0, fatFreeMass := 0, category := "N/A",
          interpretation := "", ranges := none } ∧
      gaugePercentage (ffmiData 175 70 100 Gender.female) Gender.female = 0) ∧
    (ffmiData 175 (-5) 20 Gender.male =
        { ffmi := 0, adjustedFfmi := 0, fatFreeMass := 0, category := "N/A",
          interpretation := "", ranges := none } ∧
      gaugePercentage (ffmiData 175 (-5) 20 Gender.male) Gender.male = 0) :=
  ⟨sentinel_policy 0 70 15 Gender.male (Or.inl rfl),
    sentinel_policy 175 70 100 Gender.female (Or.inr (Or.inr (Or.inl rfl))),
    sentinel_policy 175 (-5) 20 Gender.male (Or.inr (Or.inl (by norm_num)))⟩

/-- C2: core arithmetic.  For an input that is not mapped to the sentinel (height not 0 and
`weight - weight * bodyFat / 100 > 0`), with `h = height / 100`, the values computed before
formatting are `fatFreeMass = weight - weight * (bodyFat / 100)`, `ffmi = fatFreeMass / (h * h)`
and `adjustedFfmi = ffmi + 6.1 * (1.8 - h)`, and the three numeric fields of the result are
these values formatted to two decimals. -/
theorem core_arithmetic (height weight bodyFat : ℚ) (gender : Gender) (hh : height ≠ 0)
    (hf : weight - weight * bodyFat / 100 > 0) :
    fatFreeMass weight bodyFat = weight - weight * (bodyFat / 100) ∧
      ffmi height weight bodyFat =
        (weight - weight * (bodyFat / 100)) / ((height / 100) * (height / 100)) ∧
      adjustedFfmi height weight bodyFat =
        (weight - weight * (bodyFat / 100)) / ((height / 100) * (height / 100)) +
          6.1 * (1.8 - height / 100) ∧
      (ffmiData height weight bodyFat gender).fatFreeMass =
        toFixed2 (fatFreeMass weight bodyFat) ∧
      (ffmiData height weight bodyFat gender).ffmi = toFixed2 (ffmi height weight bodyFat) ∧
      (ffmiData height weight bodyFat gender).adjustedFfmi =
        toFixed2 (adjustedFfmi height weight bodyFat) := by
  have hf' : 0 < fatFreeMass weight bodyFat := by
    unfold fatFreeMass fatMass
    rw [mul_div_assoc] at hf
    exact hf
  rw [ffmiData_of_pos height weight bodyFat gender hh hf']
  exact ⟨rfl, rfl, rfl, rfl, rfl, rfl⟩

theorem core_arithmetic_witness :
    fatFreeMass 70 15 = 59.5 ∧ ffmi 175 70 15 = 59.5 / 3.0625 ∧
      adjustedFfmi 175 70 15 = 59.5 / 3.0625 + 0.305 ∧
      (ffmiData 175 70 15 Gender.male).fatFreeMass = 59.5 ∧
      (ffmiData 175 70 15 Gender.male).ffmi = 19.43 ∧
      (ffmiData 175 70 15 Gender.male).adjustedFfmi = 19.73 := by
  obtain ⟨h1, h2, h3, h4, h5, h6⟩ :=
    core_arithmetic 175 70 15 Gender.male (by norm_num) (by norm_num)
  have e1 : fatFreeMass 70 15 = 59.5 := by rw [h1]; norm_num
  have e2 : ffmi 175 70 15 = 59.5 / 3.0625 := by rw [h2]; norm_num
  have e3 : adjustedFfmi 175 70 15 = 59.5 / 3.0625 + 0.305 := by rw [h3]; norm_num
  refine ⟨e1, e2, e3, ?_, ?_, ?_⟩
  · rw [h4, e1, toFixed2_eq_of_bounds 59.5 5950 (by norm_num) (by norm_num) (by norm_num)]
    norm_num
  · rw [h5, e2,
      toFixed2_eq_of_bounds (59.5 / 3.0625) 1943 (by norm_num) (by norm_num) (by norm_num)]
    norm_num
  · rw [h6, e3,
      toFixed2_eq_of_bounds (59.5 / 3.0625 + 0.305) 1973 (by norm_num) (by norm_num)
        (by norm_num)]
    norm_num

/-- C3: classification.  For a non-sentinel input the category is that of the first entry of
the ordered threshold table of the sex whose upper bound strictly exceeds the full-precision
`ffmi`, and the final category of the table when no bound exceeds it.  In particular a male
`ffmi` of exactly 18 is `Average` and every male `ffmi` below 18 is `Below Average`, whatever
its two-decimal presentation. -/
theorem classification_first_exceeding (height weight bodyFat : ℚ) (gender : Gender)
    (hh : height ≠ 0) (hf : 0 < fatFreeMass weight bodyFat) :
    (ffmiData height weight bodyFat gender).category =
        firstExceeding (thresholds gender) (finalCategory gender)
          (ffmi height weight bodyFat) ∧
      (gender = Gender.male → ffmi height weight bodyFat = 18 →
        (ffmiData height weight bodyFat gender).category = "Average") ∧
      (gender = Gender.male → ffmi height weight bodyFat < 18 →
        (ffmiData height weight bodyFat gender).category = "Below Average") := by
  rw [ffmiData_of_pos height weight bodyFat gender hh hf]
  refine ⟨ladder_category_eq_firstExceeding gender _, ?_, ?_⟩
  · intro hg hx
    subst hg
    simp only [ladder_male, hx]
    norm_num
  · intro hg hx
    subst hg
    simp only [ladder_male, if_pos hx]

theorem classification_first_exceeding_witness :
    (ffmi 100 18 0 = 18 ∧ (ffmiData 100 18 0 Gender.male).category = "Average") ∧
      (ffmi 100 17.996 0 < 18 ∧ toFixed2 (ffmi 100 17.996 0) = 18 ∧
        (ffmiData 100 17.996 0 Gender.male).category = "Below Average") := by
  have a : ffmi 100 18 0 = 18 := by
    simp only [ffmi, fatFreeMass, fatMass, heightInMeters]
    norm_num
  have b : ffmi 100 17.996 0 = 17.996 := by
    simp only [ffmi, fatFreeMass, fatMass, heightInMeters]
    norm_num
  have fa : 0 < fatFreeMass 18 0 := by
    simp only [fatFreeMass, fatMass]
    norm_num
  have fb : 0 < fatFreeMass 17.996 0 := by
    simp only [fatFreeMass, fatMass]
    norm_num
  have hb : ffmi 100 17.996 0 < 18 := by
    rw [b]
    norm_num
  refine ⟨⟨a, ?_⟩, hb, ?_, ?_⟩
  · exact (classification_first_exceeding 100 18 0 Gender.male (by norm_num) fa).2.1 rfl a
  · rw [b, toFixed2_eq_of_bounds 17.996 1800 (by norm_num) (by norm_num) (by norm_num)]
    norm_num
  · exact (classification_first_exceeding 100 17.996 0 Gender.male (by norm_num) fb).2.2 rfl hb

/-- C4 as stated fails: at 190 cm, 80 kg, 15 % body fat (a non-sentinel input above the 1.8 m
reference) the adjusted FFMI is below the FFMI, not above it; at 170 cm it is above, not
below. -/
theorem adjustment_direction_counterexample :
    (190 : ℚ) ≠ 0 ∧ 0 < fatFreeMass 80 15 ∧ (190 : ℚ) > 180 ∧
      ¬ (adjustedFfmi 190 80 15 > ffmi 190 80 15) ∧
      (0 : ℚ) < 170 ∧ (170 : ℚ) < 180 ∧ ¬ (adjustedFfmi 170 80 15 < ffmi 170 80 15) := by
  simp only [adjustedFfmi, ffmi, fatFreeMass, fatMass, heightInMeters]
  norm_num

/-- C4, amended: the adjustment `6.1 * (1.8 - h)` has the sign of `1.8 - h`.  For a non-sentinel
input above the 1.8 m reference (`height > 180`) the adjusted FFMI is below the FFMI, and for
one below the reference (`0 < height < 180`) it is above the FFMI. -/
theorem adjustment_direction (height weight bodyFat : ℚ) (_hh : height ≠ 0)
    (_hf : 0 < fatFreeMass weight bodyFat) :
    (height > 180 → adjustedFfmi height weight bodyFat < ffmi height weight bodyFat) ∧
      (0 < height ∧ height < 180 →
        adjustedFfmi height weight bodyFat > ffmi height weight bodyFat) := by
  unfold adjustedFfmi heightInMeters
  constructor
  · intro h
    have : (1.8 : ℚ) - height / 100 < 0 := by
      rw [sub_neg, lt_div_iff₀ (by norm_num)]
      norm_num
      linarith
    nlinarith
  · rintro ⟨_, h⟩
    have : 0 < (1.8 : ℚ) - height / 100 := by
      rw [sub_pos, div_lt_iff₀ (by norm_num)]
      norm_num
      linarith
    nlinarith

theorem adjustment_direction_witness :
    adjustedFfmi 190 80 15 < ffmi 190 80 15 ∧ adjustedFfmi 170 80 15 > ffmi 170 80 15 :=
  ⟨(adjustment_direction 190 80 15 (by norm_num)
      (by simp only [fatFreeMass, fatMass]; norm_num)).1 (by norm_num),
    (adjustment_direction 170 80 15 (by norm_num)
      (by simp only [fatFreeMass, fatMass]; norm_num)).2 ⟨by norm_num, by norm_num⟩⟩

/-- C9: on the declared input domain (`height > 0`, `weight > 0`, `0 ≤ bodyFat < 100`) the
sentinel branches are not taken: the fat-free mass equals `weight * (1 - bodyFat / 100)` and is
positive, the divisor `h * h` is not zero, `ffmi` is positive, and the category is one of the
ladder of the sex, never `N/A`. -/
theorem declared_domain_total (height weight bodyFat : ℚ) (gender : Gender) (hh : 0 < height)
    (hw : 0 < weight) (hb0 : 0 ≤ bodyFat) (hb1 : bodyFat < 100) :
    fatFreeMass weight bodyFat = weight - weight * (bodyFat / 100) ∧
      weight - weight * (bodyFat / 100) = weight * (1 - bodyFat / 100) ∧
      0 < fatFreeMass weight bodyFat ∧
      heightInMeters height * heightInMeters height ≠ 0 ∧
      0 < ffmi height weight bodyFat ∧
      (ffmiData height weight bodyFat gender).category ∈ ladderCategories gender ∧
      (ffmiData height weight bodyFat gender).category ≠ "N/A" ∧
      (ffmiData height weight bodyFat gender).ranges ≠ none := by
  have _ := hb0
  have hf : 0 < fatFreeMass weight bodyFat := by
    rw [fatFreeMass_eq]
    apply mul_pos hw
    rw [sub_pos, div_lt_iff₀ (by norm_num)]
    linarith
  have hne : height ≠ 0 := ne_of_gt hh
  refine ⟨rfl, by ring, hf, ne_of_gt (heightInMeters_sq_pos height hne),
    ffmi_pos height weight bodyFat hne hf, ?_, ?_, ?_⟩
  · rw [ffmiData_of_pos height weight bodyFat gender hne hf]
    exact ladder_category_mem gender _
  · rw [ffmiData_of_pos height weight bodyFat gender hne hf]
    exact ladder_category_ne gender _
  · rw [ffmiData_of_pos height weight bodyFat gender hne hf]
    simp

theorem declared_domain_total_witness :
    0 < fatFreeMass 30 50 ∧ 0 < ffmi 230 30 50 ∧
      (ffmiData 230 30 50 Gender.female).category ∈ ladderCategories Gender.female ∧
      (ffmiData 230 30 50 Gender.female).category ≠ "N/A" := by
  obtain ⟨_, _, h3, _, h5, h6, h7, _⟩ :=
    declared_domain_total 230 30 50 Gender.female (by norm_num) (by norm_num) (by norm_num)
      (by norm_num)
  exact ⟨h3, h5, h6, h7⟩

/-- C5 as stated fails: a male input (180 cm, 90 kg, 12 %) and a female input (165 cm, 70 kg,
20 %), both non-sentinel and both classified `Very Muscular`, get different interpretation
sentences. -/
theorem interpretation_by_category_counterexample :
    0 < fatFreeMass 90 12 ∧ 0 < fatFreeMass 70 20 ∧
      (ffmiData 180 90 12 Gender.male).category = "Very Muscular" ∧
      (ffmiData 165 70 20 Gender.female).category = "Very Muscular" ∧
      (ffmiData 180 90 12 Gender.male).interpretation ≠
        (ffmiData 165 70 20 Gender.female).interpretation := by
  have fa : 0 < fatFreeMass 90 12 := by
    simp only [fatFreeMass, fatMass]
    norm_num
  have fb : 0 < fatFreeMass 70 20 := by
    simp only [fatFreeMass, fatMass]
    norm_num
  have a1 : ¬ ffmi 180 90 12 < 24 := by
    simp only [ffmi, fatFreeMass, fatMass, heightInMeters]
    norm_num
  have a2 : ffmi 180 90 12 < 25 := by
    simp only [ffmi, fatFreeMass, fatMass, heightInMeters]
    norm_num
  have b1 : ¬ ffmi 165 70 20 < 20 := by
    simp only [ffmi, fatFreeMass, fatMass, heightInMeters]
    norm_num
  have la : ladder Gender.male (ffmi 180 90 12) =
      ("Very Muscular",
        "Indicates a level of muscle mass that is achievable naturally by very few.",
        maleRanges) := by
    rw [ladder_male, if_neg (fun h => a1 (by linarith)), if_neg (fun h => a1 (by linarith)),
      if_neg (fun h => a1 (by linarith)), if_neg a1, if_pos a2]
  have lb : ladder Gender.female (ffmi 165 70 20) =
      ("Very Muscular",
        "Indicates a level of muscle mass that is very high and rarely achieved naturally.",
        femaleRanges) := by
    rw [ladder_female, if_neg (fun h => b1 (by linarith)), if_neg (fun h => b1 (by linarith)),
      if_neg (fun h => b1 (by linarith)), if_neg b1]
  rw [ffmiData_of_pos 180 90 12 Gender.male (by norm_num) fa,
    ffmiData_of_pos 165 70 20 Gender.female (by norm_num) fb, la, lb]
  exact ⟨fa, fb, rfl, rfl, by decide⟩

/-- C5, amended: for a male and a female non-sentinel input classified into the same category,
the interpretation sentences are identical when that category is Below Average, Average,
Above Average or Excellent; when it is Very Muscular the male sentence ends "achievable
naturally by very few" and the female one "very high and rarely achieved naturally". -/
theorem interpretation_by_category (hm wm bm hf wf bf : ℚ) (hhm : hm ≠ 0)
    (hfm : 0 < fatFreeMass wm bm) (hhf : hf ≠ 0) (hff : 0 < fatFreeMass wf bf)
    (hc : (ffmiData hm wm bm Gender.male).category =
      (ffmiData hf wf bf Gender.female).category) :
    ((ffmiData hm wm bm Gender.male).category ≠ "Very Muscular" →
        (ffmiData hm wm bm Gender.male).interpretation =
          (ffmiData hf wf bf Gender.female).interpretation) ∧
      ((ffmiData hm wm bm Gender.male).category = "Very Muscular" →
        (ffmiData hm wm bm Gender.male).interpretation =
            "Indicates a level of muscle mass that is achievable naturally by very few." ∧
          (ffmiData hf wf bf Gender.female).interpretation =
            "Indicates a level of muscle mass that is very high and rarely achieved naturally.") := by
  rw [ffmiData_of_pos hm wm bm Gender.male hhm hfm,
    ffmiData_of_pos hf wf bf Gender.female hhf hff] at hc ⊢
  exact ladder_interpretation_of_same_category _ _ hc

theorem interpretation_by_category_witness :
    (ffmiData 175 70 15 Gender.male).category = "Average" ∧
      (ffmiData 165 50 20 Gender.female).category = "Average" ∧
      (ffmiData 175 70 15 Gender.male).interpretation =
        (ffmiData 165 50 20 Gender.female).interpretation := by
  have fa : 0 < fatFreeMass 70 15 := by
    simp only [fatFreeMass, fatMass]
    norm_num
  have fb : 0 < fatFreeMass 50 20 := by
    simp only [fatFreeMass, fatMass]
    norm_num
  have a1 : ¬ ffmi 175 70 15 < 18 := by
    simp only [ffmi, fatFreeMass, fatMass, heightInMeters]
    norm_num
  have a2 : ffmi 175 70 15 < 20 := by
    simp only [ffmi, fatFreeMass, fatMass, heightInMeters]
    norm_num
  have b1 : ¬ ffmi 165 50 20 < 14 := by
    simp only [ffmi, fatFreeMass, fatMass, heightInMeters]
    norm_num
  have b2 : ffmi 165 50 20 < 16 := by
    simp only [ffmi, fatFreeMass, fatMass, heightInMeters]
    norm_num
  have ca : (ffmiData 175 70 15 Gender.male).category = "Average" := by
    rw [ffmiData_of_pos 175 70 15 Gender.male (by norm_num) fa, ladder_male, if_neg a1,
      if_pos a2]
  have cb : (ffmiData 165 50 20 Gender.female).category = "Average" := by
    rw [ffmiData_of_pos 165 50 20 Gender.female (by norm_num) fb, ladder_female, if_neg b1,
      if_pos b2]
  refine ⟨ca, cb, ?_⟩
  apply (interpretation_by_category 175 70 15 165 50 20 (by norm_num) fa (by norm_num) fb
    (ca.trans cb.symm)).1
  rw [ca]
  decide

/-- C6: gauge mapping.  For every FFMI value handed to the gauge computation in a non-sentinel
result (one carrying `ranges`) and each sex, the gauge percentage is
`max 0 (min 100 ((x - rangeMin) / (rangeMax - rangeMin) * 100))` with the range (16, 26) for
male and (13, 22) for female; it lies in [0, 100], is 0 when `x ≤ rangeMin` and 100 when
`x ≥ rangeMax`. -/
theorem gauge_mapping (data : FfmiData) (gender : Gender) (hr : data.ranges ≠ none) :
    displayRange Gender.male = (16, 26) ∧ displayRange Gender.female = (13, 22) ∧
      gaugePercentage data gender =
        max 0 (min 100 ((data.ffmi - (displayRange gender).1) /
          ((displayRange gender).2 - (displayRange gender).1) * 100)) ∧
      0 ≤ gaugePercentage data gender ∧ gaugePercentage data gender ≤ 100 ∧
      (data.ffmi ≤ (displayRange gender).1 → gaugePercentage data gender = 0) ∧
      ((displayRange gender).2 ≤ data.ffmi → gaugePercentage data gender = 100) := by
  have key := gaugePercentage_of_ranges data gender hr
  have hpos : 0 < (displayRange gender).2 - (displayRange gender).1 := by
    cases gender <;> simp only [displayRange] <;> norm_num
  refine ⟨rfl, rfl, key, ?_, ?_, ?_, ?_⟩
  · rw [key]
    exact le_max_left _ _
  · rw [key]
    exact max_le (by norm_num) (min_le_left _ _)
  · intro h
    rw [key]
    apply max_eq_left
    apply le_trans (min_le_right _ _)
    apply mul_nonpos_of_nonpos_of_nonneg _ (by norm_num)
    exact div_nonpos_of_nonpos_of_nonneg (by linarith) hpos.le
  · intro h
    rw [key]
    have : (100 : ℚ) ≤ (data.ffmi - (displayRange gender).1) /
        ((displayRange gender).2 - (displayRange gender).1) * 100 := by
      have h1 : 1 ≤ (data.ffmi - (displayRange gender).1) /
          ((displayRange gender).2 - (displayRange gender).1) := by
        rw [le_div_iff₀ hpos]
        linarith
      linarith
    rw [min_eq_left this]
    exact max_eq_right (by norm_num)

theorem gauge_mapping_witness :
    ffmi 180 100 8 = 92 / 3.24 ∧
      gaugePercentage (ffmiData 180 100 8 Gender.male) Gender.male = 100 := by
  have fa : 0 < fatFreeMass 100 8 := by
    simp only [fatFreeMass, fatMass]
    norm_num
  have e : ffmi 180 100 8 = 92 / 3.24 := by
    simp only [ffmi, fatFreeMass, fatMass, heightInMeters]
    norm_num
  have hd := ffmiData_of_pos 180 100 8 Gender.male (by norm_num) fa
  have hr : (ffmiData 180 100 8 Gender.male).ranges ≠ none := by
    rw [hd]
    simp
  have hx : (ffmiData 180 100 8 Gender.male).ffmi = 28.4 := by
    rw [hd]
    show toFixed2 (ffmi 180 100 8) = 28.4
    rw [e, toFixed2_eq_of_bounds (92 / 3.24) 2840 (by norm_num) (by norm_num) (by norm_num)]
    norm_num
  refine ⟨e, (gauge_mapping (ffmiData 180 100 8 Gender.male) Gender.male hr).2.2.2.2.2.2 ?_⟩
  rw [hx]
  simp only [displayRange]
  norm_num

/-- C7 as stated fails: no input saturates the gauge at 0 or at 100 while `ffmiData` reports
a category that is neither `N/A`, nor the lowest band, nor the highest band of the ladder of
the sex. -/
theorem gauge_category_divergence_counterexample :
    ¬ ∃ (height weight bodyFat : ℚ) (gender : Gender),
      (gaugePercentage (ffmiData height weight bodyFat gender) gender = 0 ∨
        gaugePercentage (ffmiData height weight bodyFat gender) gender = 100) ∧
      (ffmiData height weight bodyFat gender).category ≠ "N/A" ∧
      (ffmiData height weight bodyFat gender).category ≠ "Below Average" ∧
      (ffmiData height weight bodyFat gender).category ≠ finalCategory gender := by
  rintro ⟨height, weight, bodyFat, gender, hg, hna, hlow, htop⟩
  obtain ⟨h0, h100⟩ := saturation_extreme height weight bodyFat gender
  rcases hg with hg | hg
  · rcases h0 hg with h | h
    · exact hna h
    · exact hlow h
  · exact htop (h100 hg)

/-- C7, amended: the gauge saturates only at the extremes of the ladder.  For every input, a
gauge percentage of 0 goes with the category `N/A` or `Below Average`, and a gauge percentage
of 100 goes with the highest band of the ladder of the sex (`Likely Unnatural` for male,
`Very Muscular` for female). -/
theorem gauge_saturation_extreme (height weight bodyFat : ℚ) (gender : Gender) :
    (gaugePercentage (ffmiData height weight bodyFat gender) gender = 0 →
        (ffmiData height weight bodyFat gender).category = "N/A" ∨
          (ffmiData height weight bodyFat gender).category = "Below Average") ∧
      (gaugePercentage (ffmiData height weight bodyFat gender) gender = 100 →
        (ffmiData height weight bodyFat gender).category = finalCategory gender) :=
  saturation_extreme height weight bodyFat gender

theorem gauge_saturation_extreme_witness :
    gaugePercentage (ffmiData 175 50 15 Gender.male) Gender.male = 0 ∧
      ((ffmiData 175 50 15 Gender.male).category = "N/A" ∨
        (ffmiData 175 50 15 Gender.male).category = "Below Average") := by
  have fa : 0 < fatFreeMass 50 15 := by
    simp only [fatFreeMass, fatMass]
    norm_num
  have e : ffmi 175 50 15 = 42.5 / 3.0625 := by
    simp only [ffmi, fatFreeMass, fatMass, heightInMeters]
    norm_num
  have g : gaugePercentage (ffmiData 175 50 15 Gender.male) Gender.male = 0 := by
    rw [gaugePercentage_ffmiData 175 50 15 Gender.male (by norm_num) fa, e,
      toFixed2_eq_of_bounds (42.5 / 3.0625) 1388 (by norm_num) (by norm_num) (by norm_num)]
    simp only [displayRange]
    rw [min_eq_right (by norm_num), max_eq_left (by norm_num)]
  exact ⟨g, (gauge_saturation_extreme 175 50 15 Gender.male).1 g⟩

/-- C8: classification is monotonic.  For a fixed sex and two non-sentinel inputs whose
full-precision FFMI values satisfy `a ≤ b`, the rank of the category assigned to `a` in the
ladder order is at most the rank of the category assigned to `b`. -/
theorem classification_monotone (h₁ w₁ b₁ h₂ w₂ b₂ : ℚ) (gender : Gender) (hh₁ : h₁ ≠ 0)
    (hf₁ : 0 < fatFreeMass w₁ b₁) (hh₂ : h₂ ≠ 0) (hf₂ : 0 < fatFreeMass w₂ b₂)
    (hab : ffmi h₁ w₁ b₁ ≤ ffmi h₂ w₂ b₂) :
    rank (ffmiData h₁ w₁ b₁ gender).category ≤ rank (ffmiData h₂ w₂ b₂ gender).category := by
  rw [ffmiData_of_pos h₁ w₁ b₁ gender hh₁ hf₁, ffmiData_of_pos h₂ w₂ b₂ gender hh₂ hf₂]
  exact ladder_rank_mono gender _ _ hab

theorem classification_monotone_witness :
    ffmi 175 70 15 ≤ ffmi 180 100 8 ∧
      rank (ffmiData 175 70 15 Gender.male).category ≤
        rank (ffmiData 180 100 8 Gender.male).category := by
  have fa : 0 < fatFreeMass 70 15 := by
    simp only [fatFreeMass, fatMass]
    norm_num
  have fb : 0 < fatFreeMass 100 8 := by
    simp only [fatFreeMass, fatMass]
    norm_num
  have hab : ffmi 175 70 15 ≤ ffmi 180 100 8 := by
    simp only [ffmi, fatFreeMass, fatMass, heightInMeters]
    norm_num
  exact ⟨hab,
    classification_monotone 175 70 15 180 100 8 Gender.male (by norm_num) fa (by norm_num) fb
      hab⟩

/-- C10 as stated fails: at male, 175 cm, 70 kg, 15 % (non-sentinel, full-precision FFMI
`59.5 / 3.0625`) the gauge percentage is 34.3, computed from the two-decimal value 19.43, and
not the value `240 / 7` that the full-precision FFMI gives. -/
theorem gauge_rounding_counterexample :
    (175 : ℚ) ≠ 0 ∧ 0 < fatFreeMass 70 15 ∧
      gaugePercentage (ffmiData 175 70 15 Gender.male) Gender.male = 34.3 ∧
      max 0 (min 100 ((ffmi 175 70 15 - 16) / (26 - 16) * 100)) = 240 / 7 ∧
      gaugePercentage (ffmiData 175 70 15 Gender.male) Gender.male ≠
        max 0 (min 100 ((ffmi 175 70 15 - 16) / (26 - 16) * 100)) := by
  have fa : 0 < fatFreeMass 70 15 := by
    simp only [fatFreeMass, fatMass]
    norm_num
  have e : ffmi 175 70 15 = 59.5 / 3.0625 := by
    simp only [ffmi, fatFreeMass, fatMass, heightInMeters]
    norm_num
  have g : gaugePercentage (ffmiData 175 70 15 Gender.male) Gender.male = 34.3 := by
    rw [gaugePercentage_ffmiData 175 70 15 Gender.male (by norm_num) fa, e,
      toFixed2_eq_of_bounds (59.5 / 3.0625) 1943 (by norm_num) (by norm_num) (by norm_num)]
    simp only [displayRange]
    rw [min_eq_right (by norm_num), max_eq_right (by norm_num)]
    norm_num
  have f : max 0 (min 100 ((ffmi 175 70 15 - 16) / (26 - 16) * 100)) = 240 / 7 := by
    rw [e, min_eq_right (by norm_num), max_eq_right (by norm_num)]
    norm_num
  refine ⟨by norm_num, fa, g, f, ?_⟩
  rw [g, f]
  norm_num

/-- C10, amended: the gauge percentage produced end-to-end is computed from the two-decimal
presentation of the FFMI.  For every non-sentinel input and each sex it equals
`max 0 (min 100 ((r - rangeMin) / (rangeMax - rangeMin) * 100))` where `r` is the
full-precision `ffmi = fatFreeMass / (h * h)` rounded to the nearest hundredth. -/
theorem gauge_uses_rounded_ffmi (height weight bodyFat : ℚ) (gender : Gender)
    (hh : height ≠ 0) (hf : 0 < fatFreeMass weight bodyFat) :
    gaugePercentage (ffmiData height weight bodyFat gender) gender =
      max 0 (min 100
        ((toFixed2 (fatFreeMass weight bodyFat / (height / 100 * (height / 100))) -
            (displayRange gender).1) /
          ((displayRange gender).2 - (displayRange gender).1) * 100)) :=
  gaugePercentage_ffmiData height weight bodyFat gender hh hf

theorem gauge_uses_rounded_ffmi_witness :
    toFixed2 (fatFreeMass 55 20 / (165 / 100 * (165 / 100))) = 16.16 ∧
      gaugePercentage (ffmiData 165 55 20 Gender.female) Gender.female =
        max 0 (min 100 ((16.16 - 13) / (22 - 13) * 100)) := by
  have fa : 0 < fatFreeMass 55 20 := by
    simp only [fatFreeMass, fatMass]
    norm_num
  have e : fatFreeMass 55 20 / (165 / 100 * (165 / 100)) = 44 / 2.7225 := by
    simp only [fatFreeMass, fatMass]
    norm_num
  have r : toFixed2 (fatFreeMass 55 20 / (165 / 100 * (165 / 100))) = 16.16 := by
    rw [e, toFixed2_eq_of_bounds (44 / 2.7225) 1616 (by norm_num) (by norm_num) (by norm_num)]
    norm_num
  refine ⟨r, ?_⟩
  rw [gauge_uses_rounded_ffmi 165 55 20 Gender.female (by norm_num) fa, r]
  rfl

end FfmiCalc
